import Mathlib

/-
Verification of the concurrency core of the stack-overflow-relay repository:
a shallow embedding, in Lean 4, of the circuit breaker (src/error.rs), the
transient-error classification chain (src/error.rs, src/stack_overflow.rs,
src/pushover.rs, src/flow.rs, src/poll_spawner.rs), the poll-spawner
supervisor dispatch loop (src/poll_spawner.rs), the actor handle machinery
generated by the alictor attribute macro (alictor/alictor-derive/src/lib.rs),
and the fetch-and-forward flow (src/flow.rs).

Rust Result values are embedded as RResult, machine integers whose overflow
is irrelevant to the properties here (the i32 inside AccountId is only ever
compared for equality) as Int, and HashMap<AccountId, AbortHandle> as a
function AccountId to Option Nat, with an AbortHandle identified by the
spawn-order index of the worker it can cancel.
-/

namespace StackOverflowRelay

/-- Embedding of Rust Result<T, E>. -/
inductive RResult (T E : Type) where
  | ok (v : T)
  | err (e : E)
deriving Repr, DecidableEq

/-- Embedding of the trait IsTransient from src/error.rs. -/
class IsTransient (E : Type) where
  is_transient : E → Bool

/-
Error taxonomy, from the wrapped reqwest error outward.  Payload types the
program never inspects when classifying transience (url::ParseError,
env::VarError, snafu backtraces, HTTP bodies, ...) are embedded as
field-free structures.
-/

/-- Embedding of hyper::Error as observed by the classification in
src/error.rs: only is_incomplete_message is ever consulted. -/
structure HyperError where
  is_incomplete_message : Bool
deriving Repr, DecidableEq

/-- The dynamic source (std::error::Error::source) of a reqwest::Error: the
downcast in src/error.rs succeeds exactly on a hyper::Error. -/
inductive ReqwestSource where
  | hyper (e : HyperError)
  | otherSource
deriving Repr, DecidableEq

/-- Embedding of reqwest::Error as observed by src/error.rs: whether it is a
request-phase error, and its optional dynamic source. -/
structure ReqwestError where
  is_request : Bool
  source : Option ReqwestSource
deriving Repr, DecidableEq

/-- impl IsTransient for reqwest::Error (src/error.rs lines 9-17):
is_request() and the source downcasts to a hyper error that
is_incomplete_message(). -/
instance : IsTransient ReqwestError where
  is_transient e :=
    e.is_request &&
      (e.source.elim false fun s =>
        match s with
        | .hyper h => h.is_incomplete_message
        | .otherSource => false)

/-- Opaque payload: std::env::VarError. -/
structure VarError
deriving Repr, DecidableEq

/-- Opaque payload: url::ParseError. -/
structure UrlParseError
deriving Repr, DecidableEq

/-- Opaque payload: the NotSuccess error of src/stack_overflow.rs (HTTP
status, headers, body); never consulted by transience classification. -/
structure NotSuccess
deriving Repr, DecidableEq

/-- Opaque payload: the ApiError of src/stack_overflow.rs. -/
structure ApiError
deriving Repr, DecidableEq

/-- Opaque payload: tokio::task::JoinError (the child task panicked or was
cancelled); never consulted beyond being wrapped. -/
structure JoinError
deriving Repr, DecidableEq

/-- Opaque payload: crate::database::Error. -/
structure DatabaseError
deriving Repr, DecidableEq

/-- Embedding of enum CommonError from src/stack_overflow.rs. -/
inductive CommonError where
  | UnableToExecuteRequest (source : ReqwestError)
  | RequestRejected (source : NotSuccess)
  | UnableToDeserializeRequest (source : ReqwestError)
  | RequestFailed (source : ApiError)
deriving Repr, DecidableEq

/-- impl IsTransient for CommonError (src/stack_overflow.rs lines 613-620):
only UnableToExecuteRequest delegates to its reqwest source. -/
instance : IsTransient CommonError where
  is_transient e :=
    match e with
    | .UnableToExecuteRequest source => IsTransient.is_transient source
    | _ => false

/-- Embedding of struct UnreadNotificationsError(CommonError) from
src/stack_overflow.rs. -/
structure UnreadNotificationsError where
  common : CommonError
deriving Repr, DecidableEq

/-- impl IsTransient for UnreadNotificationsError: delegates to the wrapped
CommonError. -/
instance : IsTransient UnreadNotificationsError where
  is_transient e := IsTransient.is_transient e.common

/-- Embedding of struct UnreadInboxError(CommonError) from
src/stack_overflow.rs. -/
structure UnreadInboxError where
  common : CommonError
deriving Repr, DecidableEq

/-- impl IsTransient for UnreadInboxError: delegates to the wrapped
CommonError. -/
instance : IsTransient UnreadInboxError where
  is_transient e := IsTransient.is_transient e.common

/-- Embedding of enum CurrentUserError from src/stack_overflow.rs. -/
inductive CurrentUserError where
  | Common (source : CommonError)
  | RequestDidNotHaveOneResult
deriving Repr, DecidableEq

/-- Embedding of enum Error from src/stack_overflow.rs (configuration and
OAuth errors); it has no IsTransient impl and never reaches a breaker. -/
inductive StackOverflowError where
  | UnknownClientId (source : VarError)
  | UnknownClientSecret (source : VarError)
  | UnknownClientKey (source : VarError)
  | UnableToConfigureUnreadNotificationsUrl (source : UrlParseError)
  | UnableToConfigureUnreadInboxUrl (source : UrlParseError)
  | UnableToConfigureCurrentUserUrl (source : UrlParseError)
  | UnableToBuildOauthEntryUrl (source : UrlParseError)
  | UnableToExecuteAccessTokenRequest (source : ReqwestError)
  | AccessTokenRequestRejected (source : NotSuccess)
  | UnableToDeserializeAccessTokenRequest (source : ReqwestError)
deriving Repr, DecidableEq

/-- Embedding of enum Error from src/pushover.rs. -/
inductive PushoverError where
  | UnknownApiToken (source : VarError)
  | UnableToConfigureNotifyUrl (source : UrlParseError)
  | UnableToSendNotification (source : ReqwestError)
deriving Repr, DecidableEq

/-- impl IsTransient for pushover::Error (src/pushover.rs lines 98-104):
only UnableToSendNotification delegates to its reqwest source. -/
instance : IsTransient PushoverError where
  is_transient e :=
    match e with
    | .UnableToSendNotification source => IsTransient.is_transient source
    | _ => false

/-- Embedding of enum Error from src/flow.rs. -/
inductive FlowError where
  | UnableToLoadRegistrations (source : DatabaseError)
  | UnableToGetOauthAccessToken (source : StackOverflowError)
  | UnableToGetCurrentUser (source : CurrentUserError)
  | UnableToPersistRegistration (source : DatabaseError)
  | UnableToPersistPushoverUser (source : DatabaseError)
  | UnableToGetUnreadNotifications (source : UnreadNotificationsError)
  | UnableToGetUnreadInbox (source : UnreadInboxError)
  | UnableToPersistNotifications (source : DatabaseError)
  | UnableToDeliverNotifications (source : PushoverError)
deriving Repr, DecidableEq

/-- impl IsTransient for flow::Error (src/flow.rs lines 249-258): the two
unread queries and the delivery call delegate; every other variant is
non-transient. -/
instance : IsTransient FlowError where
  is_transient e :=
    match e with
    | .UnableToGetUnreadNotifications source => IsTransient.is_transient source
    | .UnableToGetUnreadInbox source => IsTransient.is_transient source
    | .UnableToDeliverNotifications source => IsTransient.is_transient source
    | _ => false

/-- Embedding of struct BreakerError from src/error.rs (a payload-free
snafu error). -/
structure BreakerError
deriving Repr, DecidableEq

/-- Embedding of enum Error from src/poll_spawner.rs.  The unread query at
the poll_one_account call site returns UnreadNotificationsError (the return
type of AuthClient::unread_notifications in src/stack_overflow.rs), which
is the type whose IsTransient impl the classification chain uses. -/
inductive PollError where
  | ChildFailed (source : JoinError)
  | UnableToGetUnreadNotifications (source : UnreadNotificationsError)
  | UnableToSendNotifications (source : FlowError)
  | TooManyTransientFailures (source : BreakerError)
deriving Repr, DecidableEq

/-- impl IsTransient for poll_spawner::Error (src/poll_spawner.rs lines
158-167): ChildFailed and TooManyTransientFailures are never transient; the
two collaborator wrappers delegate. -/
instance : IsTransient PollError where
  is_transient e :=
    match e with
    | .ChildFailed _ => false
    | .UnableToGetUnreadNotifications source => IsTransient.is_transient source
    | .UnableToSendNotifications source => IsTransient.is_transient source
    | .TooManyTransientFailures _ => false

/-
The circuit breaker, src/error.rs lines 19-57.
-/

/-- Embedding of struct Breaker from src/error.rs. -/
structure Breaker where
  failure_count : Nat
deriving Repr, DecidableEq

/-- Breaker's derive(Default): failure_count starts at zero. -/
def Breaker.default : Breaker := { failure_count := 0 }

/-- Embedding of Breaker::check (src/error.rs lines 33-56).  The returned
pair is the updated breaker (the mutated self) and the returned value:
Ok(Some(Ok v)) for a success after resetting the counter, Ok(None) for a
suppressed transient failure after incrementing the counter, Err for the
tripped ensure! when the incremented counter reaches 10, and
Ok(Some(Err e)) for a non-transient failure with the counter untouched. -/
def Breaker.check {T E : Type} [IsTransient E] (b : Breaker) (r : RResult T E) :
    Breaker × RResult (Option (RResult T E)) BreakerError :=
  match r with
  | .ok v => ({ failure_count := 0 }, .ok (some (.ok v)))
  | .err e =>
    if IsTransient.is_transient e then
      if b.failure_count + 1 < 10 then
        ({ failure_count := b.failure_count + 1 }, .ok none)
      else
        ({ failure_count := b.failure_count + 1 }, .err {})
    else
      (b, .ok (some (.err e)))

/-- Feeding a list of attempt outcomes through one breaker, one
Breaker::check call per outcome, collecting each call's return value. -/
def Breaker.checkSeq {T E : Type} [IsTransient E] (b : Breaker) :
    List (RResult T E) → Breaker × List (RResult (Option (RResult T E)) BreakerError)
  | [] => (b, [])
  | r :: rs =>
    let step := b.check r
    let rest := step.1.checkSeq rs
    (rest.1, step.2 :: rest.2)

/-
Breaker lemmas.  The two fixture values below are concrete reqwest errors
used by the witness theorems: the first is transient under the
classification of src/error.rs (request-phase, incomplete-message hyper
source), the second is not.
-/

/-- Concrete transient input: a request-phase reqwest error whose source is
an incomplete-message hyper error. -/
def incompleteMessageError : ReqwestError :=
  { is_request := true, source := some (.hyper { is_incomplete_message := true }) }

/-- Concrete non-transient input: a reqwest error that is not a
request-phase error and has no source. -/
def otherReqwestError : ReqwestError :=
  { is_request := false, source := none }

/-- One Breaker::check call on a transient error, written out: the counter
is incremented, and the disposition depends only on the incremented counter
reaching the threshold 10. -/
theorem Breaker.check_transient {T E : Type} [IsTransient E] (b : Breaker) (e : E)
    (he : IsTransient.is_transient e = true) :
    Breaker.check (T := T) b (.err e) =
      if b.failure_count + 1 < 10 then
        ({ failure_count := b.failure_count + 1 }, .ok none)
      else
        ({ failure_count := b.failure_count + 1 }, .err {}) := by
  simp [Breaker.check, he]

/-- A run of transient errors below the threshold: starting from counter k
with k + n at most 9, all n outcomes are suppressed and the counter ends at
k + n. -/
theorem Breaker.checkSeq_replicate_transient {T E : Type} [IsTransient E] (e : E)
    (he : IsTransient.is_transient e = true) :
    ∀ (n k : Nat), k + n ≤ 9 →
      Breaker.checkSeq (T := T) { failure_count := k } (List.replicate n (.err e)) =
        ({ failure_count := k + n }, List.replicate n (.ok none))
  | 0, k, _ => by simp [Breaker.checkSeq]
  | n + 1, k, h => by
    have hlt : k + 1 < 10 := by omega
    have ih := Breaker.checkSeq_replicate_transient (T := T) e he n (k + 1) (by omega)
    have harith : k + 1 + n = k + (n + 1) := by omega
    simp only [List.replicate_succ, Breaker.checkSeq, Breaker.check_transient _ e he,
      if_pos hlt, ih, harith]

/-- C2: starting from a breaker with counter zero, each of 9 consecutive
transient failures is suppressed (Breaker::check returns Ok(None)) with the
counter equal to the number of failures so far, and a 10th consecutive
transient failure returns the tripped disposition, the BreakerError. -/
theorem breaker_nine_suppressed_tenth_trips {T E : Type} [IsTransient E] (e : E)
    (he : IsTransient.is_transient e = true) :
    (∀ n : Nat, n ≤ 9 →
      Breaker.checkSeq (T := T) Breaker.default (List.replicate n (.err e)) =
        ({ failure_count := n }, List.replicate n (.ok none))) ∧
    Breaker.check (T := T) { failure_count := 9 } (.err e) =
      ({ failure_count := 10 }, .err {}) := by
  constructor
  · intro n hn
    have h := Breaker.checkSeq_replicate_transient (T := T) e he n 0 (by omega)
    simpa [Breaker.default] using h
  · simp [Breaker.check, he]

/-- Witness for C2 at a concrete transient error: a request-phase reqwest
error whose source is an incomplete-message hyper error. -/
theorem breaker_nine_suppressed_tenth_trips_witness :
    Breaker.checkSeq (T := Unit) Breaker.default
        (List.replicate 9 (.err incompleteMessageError)) =
      ({ failure_count := 9 }, List.replicate 9 (.ok none)) :=
  (breaker_nine_suppressed_tenth_trips _ (by decide)).1 9 (by decide)

/-- C3: a success resets the breaker to the freshly constructed state
whatever the prior counter was, so feeding transient, transient, success,
then nine more transient failures yields the suppressed disposition for
every transient input. -/
theorem breaker_success_resets {T E : Type} [IsTransient E] (e : E)
    (he : IsTransient.is_transient e = true) (v : T) :
    (∀ b : Breaker, (Breaker.check (E := E) b (.ok v)).1 = Breaker.default) ∧
    (Breaker.checkSeq (T := T) Breaker.default
        ([.err e, .err e, .ok v] ++ List.replicate 9 (.err e))).2 =
      [.ok none, .ok none, .ok (some (.ok v))] ++ List.replicate 9 (.ok none) := by
  constructor
  · intro b; rfl
  · have h9 := Breaker.checkSeq_replicate_transient (T := T) e he 9 0 (by omega)
    simp [Breaker.checkSeq, Breaker.check, he, Breaker.default, h9]

/-- Witness for C3 at a concrete transient error and success value. -/
theorem breaker_success_resets_witness :
    (Breaker.checkSeq (T := Unit) Breaker.default
        (([.err incompleteMessageError, .err incompleteMessageError,
            .ok ()] : List (RResult Unit ReqwestError)) ++
          List.replicate 9 (.err incompleteMessageError))).2 =
      [.ok none, .ok none, .ok (some (.ok ()))] ++ List.replicate 9 (.ok none) :=
  (breaker_success_resets _ (by decide) ()).2

/-- C4: a non-transient failure is returned immediately (the ran
disposition carrying that failure) and the counter is left unchanged, for
every prior counter value. -/
theorem breaker_nontransient_unchanged {T E : Type} [IsTransient E] (e : E)
    (he : IsTransient.is_transient e = false) (b : Breaker) :
    Breaker.check (T := T) b (.err e) = (b, .ok (some (.err e))) := by
  simp [Breaker.check, he]

/-- Witness for C4 at a concrete non-transient error and counter 7. -/
theorem breaker_nontransient_unchanged_witness :
    Breaker.check (T := Unit) { failure_count := 7 } (.err otherReqwestError) =
      ({ failure_count := 7 }, .ok (some (.err otherReqwestError))) :=
  breaker_nontransient_unchanged _ (by decide) _

/-- C9: when Breaker::check does not trip, the resulting counter stays
below 10 (given it was below 10 before, as it is at construction); a
suppressed result leaves the counter in 1..9; and the counter is only ever
reset to zero, incremented by exactly one, or left unchanged. -/
theorem breaker_counter_invariant {T E : Type} [IsTransient E] (b : Breaker)
    (r : RResult T E) (hb : b.failure_count < 10) :
    (∀ b2 out, Breaker.check b r = (b2, .ok out) → b2.failure_count < 10) ∧
    (∀ b2, Breaker.check b r = (b2, .ok none) →
      1 ≤ b2.failure_count ∧ b2.failure_count ≤ 9) ∧
    ((Breaker.check b r).1.failure_count = 0 ∨
      (Breaker.check b r).1.failure_count = b.failure_count + 1 ∨
      (Breaker.check b r).1.failure_count = b.failure_count) := by
  obtain ⟨fc⟩ := b
  rcases r with v | e
  · refine ⟨?_, ?_, Or.inl rfl⟩
    · intro b2 out h
      injection h with h1 h2
      subst h1
      show 0 < 10
      omega
    · intro b2 h
      injection h with h1 h2
      injection h2 with h3
      exact Option.noConfusion h3
  · by_cases ht : IsTransient.is_transient e
    · have hcheck :
          Breaker.check (T := T) { failure_count := fc } (.err e) =
            if fc + 1 < 10 then ({ failure_count := fc + 1 }, .ok none)
            else ({ failure_count := fc + 1 }, .err {}) :=
        Breaker.check_transient _ e ht
      by_cases h10 : fc + 1 < 10
      · rw [if_pos h10] at hcheck
        refine ⟨?_, ?_, Or.inr (Or.inl ?_)⟩
        · intro b2 out h
          rw [hcheck] at h
          injection h with h1 h2
          subst h1
          show fc + 1 < 10
          exact h10
        · intro b2 h
          rw [hcheck] at h
          injection h with h1 h2
          subst h1
          show 1 ≤ fc + 1 ∧ fc + 1 ≤ 9
          omega
        · rw [hcheck]
      · rw [if_neg h10] at hcheck
        refine ⟨?_, ?_, Or.inr (Or.inl ?_)⟩
        · intro b2 out h
          rw [hcheck] at h
          injection h with h1 h2
          exact RResult.noConfusion h2
        · intro b2 h
          rw [hcheck] at h
          injection h with h1 h2
          exact RResult.noConfusion h2
        · rw [hcheck]
    · have hcheck :
          Breaker.check (T := T) { failure_count := fc } (.err e) =
            ({ failure_count := fc }, .ok (some (.err e))) := by
        simp [Breaker.check, ht]
      refine ⟨?_, ?_, Or.inr (Or.inr ?_)⟩
      · intro b2 out h
        rw [hcheck] at h
        injection h with h1 h2
        subst h1
        exact hb
      · intro b2 h
        rw [hcheck] at h
        injection h with h1 h2
        injection h2 with h3
        exact Option.noConfusion h3
      · rw [hcheck]

/-- Witness for C9: the invariant instantiated at counter 5 and a concrete
non-transient failure. -/
theorem breaker_counter_invariant_witness :
    (Breaker.check (T := Unit) { failure_count := 5 }
        (.err otherReqwestError)).1.failure_count = 0 ∨
    (Breaker.check (T := Unit) { failure_count := 5 }
        (.err otherReqwestError)).1.failure_count = 5 + 1 ∨
    (Breaker.check (T := Unit) { failure_count := 5 }
        (.err otherReqwestError)).1.failure_count = 5 :=
  (breaker_counter_invariant { failure_count := 5 } _ (by decide)).2.2

/-
The poll-spawner supervisor, src/poll_spawner.rs lines 30-66.  The dispatch
loop owns a HashMap from AccountId to the AbortHandle of that account's
current worker and a FuturesUnordered of child join handles; each turn it
either receives a (account_id, access_token) pair from the mailbox or a
child completion.  An AbortHandle is identified by the wid (spawn index) of
the worker it cancels, and invoking it marks that worker Aborted.
-/

/-- Embedding of stack_overflow::AccountId (a newtype over i32; only ever
compared for equality here, so the integer is embedded as Int). -/
structure AccountId where
  val : Int
deriving Repr, DecidableEq

/-- Embedding of stack_overflow::AccessToken (a newtype over String). -/
structure AccessToken where
  val : String
deriving Repr, DecidableEq

/-- A worker's observable lifecycle state for the at-most-one-live-worker
property: Running until its cancellation capability (AbortHandle) is
invoked, Aborted afterwards. -/
inductive WorkerStatus where
  | Running
  | Aborted
deriving Repr, DecidableEq

/-- One spawned worker: its spawn index (which also identifies its
AbortHandle), the account and credential it was bound to, and whether its
cancellation capability has been invoked. -/
structure WorkerEntry where
  wid : Nat
  account_id : AccountId
  access_token : AccessToken
  status : WorkerStatus
deriving Repr, DecidableEq

/-- The state owned by the supervisor dispatch loop: the next spawn index,
the pollers HashMap (account to AbortHandle of its current worker), and
every worker spawned so far with its status. -/
structure SupervisorState where
  nextId : Nat
  pollers : AccountId → Option Nat
  workers : List WorkerEntry

/-- The state at the top of the dispatch loop: empty pollers map, no
children. -/
def SupervisorState.initial : SupervisorState :=
  { nextId := 0, pollers := fun _ => none, workers := [] }

/-- The command arm of the dispatch loop (src/poll_spawner.rs lines 41-53):
spawn a new abortable worker for the pair, push it onto children, insert
its abort handle into pollers, and invoke the abort handle previously
stored for the same account, if any. -/
def SupervisorState.startPolling (s : SupervisorState) (account_id : AccountId)
    (access_token : AccessToken) : SupervisorState :=
  { nextId := s.nextId + 1
    pollers := fun a => if a = account_id then some s.nextId else s.pollers a
    workers :=
      match s.pollers account_id with
      | some old_handle =>
        { wid := s.nextId, account_id, access_token, status := .Running } ::
          s.workers.map fun u =>
            if u.wid = old_handle then { u with status := .Aborted } else u
      | none =>
        { wid := s.nextId, account_id, access_token, status := .Running } :: s.workers }

/-- Processing a list of start_polling commands in arrival order, from the
given state. -/
def SupervisorState.startPollingAll (s : SupervisorState)
    (cmds : List (AccountId × AccessToken)) : SupervisorState :=
  cmds.foldl (fun s2 c => s2.startPolling c.1 c.2) s

/-- Embedding of futures Aborted: the value an abortable future resolves to
once its AbortHandle was invoked. -/
structure Aborted
deriving Repr, DecidableEq

/-- One turn's input to the supervisor select! loop: either a registration
pair from the mailbox, or a completed child.  A child completion carries
what children.select_next_some() yields: Err(JoinError) when the spawned
task panicked, Ok(Err(Aborted)) when the worker was cancelled through its
AbortHandle, and Ok(Ok(r)) with r the poll loop's own result otherwise. -/
inductive SupervisorEvent where
  | command (account_id : AccountId) (access_token : AccessToken)
  | childCompleted (r : RResult (RResult (RResult Unit PollError) Aborted) JoinError)

/-- One turn of the dispatch loop: the next state and, when the loop body
propagates an error with the question-mark operator, the value the
supervisor task completes with (src/poll_spawner.rs lines 39-62). -/
def SupervisorState.step (s : SupervisorState) (ev : SupervisorEvent) :
    SupervisorState × Option (RResult Unit PollError) :=
  match ev with
  | .command account_id access_token => (s.startPolling account_id access_token, none)
  | .childCompleted r =>
    match r with
    | .err j => (s, some (.err (.ChildFailed j)))
    | .ok (.ok (.ok _)) => (s, none)
    | .ok (.ok (.err e)) => (s, some (.err e))
    | .ok (.err _) => (s, none)

/-- Running the dispatch loop over a sequence of turns: the loop keeps
taking turns until one propagates an error; the second component is the
value the supervisor task completes with, none while it is still looping. -/
def SupervisorState.loopRun (s : SupervisorState) :
    List SupervisorEvent → SupervisorState × Option (RResult Unit PollError)
  | [] => (s, none)
  | ev :: evs =>
    match s.step ev with
    | (s2, none) => s2.loopRun evs
    | (s2, some r) => (s2, some r)

/-
Supervisor invariant for C1.
-/

/-- The inductive invariant of the dispatch loop: every spawned worker's
wid is below nextId, wids identify workers uniquely, and every Running
worker is the one its account's pollers entry points at. -/
structure SupervisorInv (s : SupervisorState) : Prop where
  wid_lt : ∀ w ∈ s.workers, w.wid < s.nextId
  wid_inj : ∀ w1 ∈ s.workers, ∀ w2 ∈ s.workers, w1.wid = w2.wid → w1 = w2
  running_registered : ∀ w ∈ s.workers, w.status = WorkerStatus.Running →
    s.pollers w.account_id = some w.wid

/-- The initial supervisor state satisfies the invariant. -/
theorem supervisorInv_initial : SupervisorInv SupervisorState.initial := by
  constructor <;> intro w hw <;> simp [SupervisorState.initial] at hw

/-- Processing one start_polling command preserves the invariant. -/
theorem supervisorInv_startPolling {s : SupervisorState} (h : SupervisorInv s)
    (k : AccountId) (tok : AccessToken) : SupervisorInv (s.startPolling k tok) := by
  obtain ⟨hlt, hinj, hreg⟩ := h
  cases hold : s.pollers k with
  | none =>
    refine ⟨?_, ?_, ?_⟩
    · intro w hw
      simp only [SupervisorState.startPolling, hold, List.mem_cons] at hw
      rcases hw with rfl | hw
      · exact Nat.lt_succ_self _
      · exact Nat.lt_succ_of_lt (hlt w hw)
    · intro w1 h1 w2 h2 heq
      simp only [SupervisorState.startPolling, hold, List.mem_cons] at h1 h2
      rcases h1 with rfl | h1 <;> rcases h2 with rfl | h2
      · rfl
      · exact absurd (heq ▸ hlt w2 h2) (by simp)
      · exact absurd (heq ▸ hlt w1 h1) (by simp)
      · exact hinj w1 h1 w2 h2 heq
    · intro w hw hrun
      simp only [SupervisorState.startPolling, hold, List.mem_cons] at hw ⊢
      rcases hw with rfl | hw
      · simp
      · have hk : w.account_id ≠ k := by
          intro hkk
          have := hreg w hw hrun
          rw [hkk, hold] at this
          exact Option.noConfusion this
        rw [if_neg hk]
        exact hreg w hw hrun
  | some old_handle =>
    have hold_lt : ∀ w ∈ s.workers, w.wid = old_handle → w.wid < s.nextId :=
      fun w hw _ => hlt w hw
    refine ⟨?_, ?_, ?_⟩
    · intro w hw
      simp only [SupervisorState.startPolling, hold, List.mem_cons, List.mem_map] at hw
      rcases hw with rfl | ⟨u, hu, rfl⟩
      · exact Nat.lt_succ_self _
      · have := hlt u hu
        split <;> exact Nat.lt_succ_of_lt this
    · intro w1 h1 w2 h2 heq
      simp only [SupervisorState.startPolling, hold, List.mem_cons, List.mem_map] at h1 h2
      have widmark : ∀ u : WorkerEntry,
          (if u.wid = old_handle then { u with status := WorkerStatus.Aborted } else u).wid =
            u.wid := by
        intro u; split <;> rfl
      rcases h1 with rfl | ⟨u1, hu1, rfl⟩ <;> rcases h2 with rfl | ⟨u2, hu2, rfl⟩
      · rfl
      · rw [widmark u2] at heq
        exact absurd (heq ▸ hlt u2 hu2) (by simp)
      · rw [widmark u1] at heq
        exact absurd (heq ▸ hlt u1 hu1) (by simp)
      · rw [widmark u1, widmark u2] at heq
        rw [hinj u1 hu1 u2 hu2 heq]
    · intro w hw hrun
      simp only [SupervisorState.startPolling, hold, List.mem_cons, List.mem_map] at hw ⊢
      rcases hw with rfl | ⟨u, hu, rfl⟩
      · simp
      · by_cases hwid : u.wid = old_handle
        · rw [if_pos hwid] at hrun ⊢
          exact absurd hrun (by simp)
        · rw [if_neg hwid] at hrun ⊢
          have hk : u.account_id ≠ k := by
            intro hkk
            have := hreg u hu hrun
            rw [hkk, hold] at this
            exact hwid (Option.some.inj this).symm
          rw [if_neg hk]
          exact hreg u hu hrun

/-- The invariant holds after any sequence of start_polling commands. -/
theorem supervisorInv_startPollingAll {s : SupervisorState} (h : SupervisorInv s)
    (cmds : List (AccountId × AccessToken)) : SupervisorInv (s.startPollingAll cmds) := by
  induction cmds generalizing s with
  | nil => exact h
  | cons c cmds ih =>
    exact ih (supervisorInv_startPolling h c.1 c.2)

/-- C1: after the dispatch loop has processed any sequence of start_polling
commands, at most one worker per account identity is in the Running state:
any two Running workers for the same account are the same worker. -/
theorem at_most_one_running_worker (cmds : List (AccountId × AccessToken))
    (w1 w2 : WorkerEntry)
    (h1 : w1 ∈ (SupervisorState.initial.startPollingAll cmds).workers)
    (h2 : w2 ∈ (SupervisorState.initial.startPollingAll cmds).workers)
    (hr1 : w1.status = WorkerStatus.Running) (hr2 : w2.status = WorkerStatus.Running)
    (hk : w1.account_id = w2.account_id) : w1 = w2 := by
  have hinv := supervisorInv_startPollingAll supervisorInv_initial cmds
  have e1 := hinv.running_registered w1 h1 hr1
  have e2 := hinv.running_registered w2 h2 hr2
  rw [hk, e2] at e1
  exact hinv.wid_inj w1 h1 w2 h2 (Option.some.inj e1).symm

/-- Witness for C1: after two registrations for account 1 (the second
replacing the first) and one for account 2, the theorem applies to the one
Running worker of account 1. -/
theorem at_most_one_running_worker_witness :
    ({ wid := 1, account_id := { val := 1 }, access_token := { val := "b" },
        status := .Running } : WorkerEntry) =
      { wid := 1, account_id := { val := 1 }, access_token := { val := "b" },
        status := .Running } :=
  at_most_one_running_worker
    [({ val := 1 }, { val := "a" }), ({ val := 1 }, { val := "b" }),
      ({ val := 2 }, { val := "c" })]
    _ _ (by decide) (by decide) rfl rfl rfl

/-- C5: the supervisor task completes exactly when a turn hands it a child
completion that is either a panicked task (JoinError, propagated wrapped in
ChildFailed) or a non-aborted worker exit carrying a fatal error
(propagated unmodified); over any run it never completes with success. -/
theorem supervisor_completes_only_with_fatal_error :
    (∀ (s : SupervisorState) (evs : List SupervisorEvent) (v : Unit),
      (s.loopRun evs).2 ≠ some (.ok v)) ∧
    (∀ (s : SupervisorState) (ev : SupervisorEvent) (r : RResult Unit PollError),
      (s.step ev).2 = some r ↔
        (∃ j, ev = .childCompleted (.err j) ∧ r = .err (.ChildFailed j)) ∨
        (∃ e, ev = .childCompleted (.ok (.ok (.err e))) ∧ r = .err e)) := by
  have hstep : ∀ (s : SupervisorState) (ev : SupervisorEvent) (v : Unit),
      (s.step ev).2 ≠ some (.ok v) := by
    intro s ev v h
    rcases ev with ⟨k, tok⟩ | ⟨r⟩
    · exact Option.noConfusion h
    · rcases r with r | j
      · rcases r with r | a
        · rcases r with u | e
          · exact Option.noConfusion h
          · exact RResult.noConfusion (Option.some.inj h)
        · exact Option.noConfusion h
      · exact RResult.noConfusion (Option.some.inj h)
  constructor
  · intro s evs
    induction evs generalizing s with
    | nil => intro v h; exact Option.noConfusion h
    | cons ev evs ih =>
      intro v h
      rw [SupervisorState.loopRun] at h
      rcases hs : s.step ev with ⟨s2, o⟩
      rw [hs] at h
      rcases o with - | r
      · exact ih s2 v h
      · exact hstep s ev v (by rw [hs]; exact h)
  · intro s ev r
    constructor
    · intro h
      rcases ev with ⟨k, tok⟩ | ⟨c⟩
      · exact Option.noConfusion h
      · rcases c with c | j
        · rcases c with c | a
          · rcases c with u | e
            · exact Option.noConfusion h
            · exact Or.inr ⟨e, rfl, (Option.some.inj h).symm⟩
          · exact Option.noConfusion h
        · exact Or.inl ⟨j, rfl, (Option.some.inj h).symm⟩
    · rintro (⟨j, rfl, rfl⟩ | ⟨e, rfl, rfl⟩) <;> rfl

/-- C6: the completion of a worker that was replaced (and therefore
cancelled through its AbortHandle, surfacing as Ok(Err(Aborted))) is
ignored: the turn changes nothing, produces no supervisor error, and the
loop goes on processing the remaining turns. -/
theorem superseded_completion_ignored (s : SupervisorState) (a : Aborted)
    (evs : List SupervisorEvent) :
    s.step (.childCompleted (.ok (.err a))) = (s, none) ∧
    s.loopRun (.childCompleted (.ok (.err a)) :: evs) = s.loopRun evs := by
  constructor
  · rfl
  · rfl

/-
Transient classification chain for C10.  The four definitions below are the
refinement side of the claim, modelled from its wording: the underlying
cause of an error, reached by following the collaborator error wrappers
that wrap the failing HTTP request.  They are compared against the
IsTransient instances embedded from the source above.
-/

/-- Modelled from the claim: the request-phase HTTP error a CommonError
wraps. Only UnableToExecuteRequest wraps the failing HTTP request itself;
the other variants wrap a rejection, a deserialization failure or an API
error. -/
def CommonError.requestPhaseSource : CommonError → Option ReqwestError
  | .UnableToExecuteRequest source => some source
  | _ => none

/-- Modelled from the claim: the request-phase HTTP error a pushover error
wraps (only UnableToSendNotification wraps the failing HTTP request). -/
def PushoverError.requestPhaseSource : PushoverError → Option ReqwestError
  | .UnableToSendNotification source => some source
  | _ => none

/-- Modelled from the claim: the request-phase HTTP error underlying a flow
error, through the unread-notifications, unread-inbox or delivery
collaborator wrappers. -/
def FlowError.requestPhaseSource : FlowError → Option ReqwestError
  | .UnableToGetUnreadNotifications source => source.common.requestPhaseSource
  | .UnableToGetUnreadInbox source => source.common.requestPhaseSource
  | .UnableToDeliverNotifications source => source.requestPhaseSource
  | _ => none

/-- Modelled from the claim: the request-phase HTTP error underlying a
worker error, through each collaborator error wrapper.  A ChildFailed or
TooManyTransientFailures error has no such underlying cause. -/
def PollError.requestPhaseSource : PollError → Option ReqwestError
  | .ChildFailed _ => none
  | .UnableToGetUnreadNotifications source => source.common.requestPhaseSource
  | .UnableToSendNotifications source => source.requestPhaseSource
  | .TooManyTransientFailures _ => none

/-- A reqwest error is transient exactly when it is a request-phase error
whose source is an incomplete-message hyper error. -/
theorem reqwest_transient_iff (r : ReqwestError) :
    IsTransient.is_transient r = true ↔
      r.is_request = true ∧ ∃ h, r.source = some (ReqwestSource.hyper h) ∧
        h.is_incomplete_message = true := by
  obtain ⟨req, src⟩ := r
  show (req && Option.elim src false fun s => match s with
      | ReqwestSource.hyper h => h.is_incomplete_message
      | ReqwestSource.otherSource => false) = true ↔ _
  rcases src with - | s
  · simp [Option.elim]
  · rcases s with h | -
    · simp [Option.elim]
    · simp [Option.elim]

/-- A CommonError is transient exactly when its request-phase source has
the incomplete-message shape. -/
theorem common_transient_iff (c : CommonError) :
    IsTransient.is_transient c = true ↔
      ∃ r, c.requestPhaseSource = some r ∧ r.is_request = true ∧
        ∃ h, r.source = some (ReqwestSource.hyper h) ∧ h.is_incomplete_message = true := by
  cases c with
  | UnableToExecuteRequest r =>
    show IsTransient.is_transient r = true ↔ _
    rw [reqwest_transient_iff]
    simp [CommonError.requestPhaseSource]
  | RequestRejected r =>
    show false = true ↔ _
    simp [CommonError.requestPhaseSource]
  | UnableToDeserializeRequest r =>
    show false = true ↔ _
    simp [CommonError.requestPhaseSource]
  | RequestFailed r =>
    show false = true ↔ _
    simp [CommonError.requestPhaseSource]

/-- A pushover error is transient exactly when its request-phase source has
the incomplete-message shape. -/
theorem pushover_transient_iff (p : PushoverError) :
    IsTransient.is_transient p = true ↔
      ∃ r, p.requestPhaseSource = some r ∧ r.is_request = true ∧
        ∃ h, r.source = some (ReqwestSource.hyper h) ∧ h.is_incomplete_message = true := by
  cases p with
  | UnableToSendNotification r =>
    show IsTransient.is_transient r = true ↔ _
    rw [reqwest_transient_iff]
    simp [PushoverError.requestPhaseSource]
  | UnknownApiToken r =>
    show false = true ↔ _
    simp [PushoverError.requestPhaseSource]
  | UnableToConfigureNotifyUrl r =>
    show false = true ↔ _
    simp [PushoverError.requestPhaseSource]

/-- A flow error is transient exactly when its request-phase source has the
incomplete-message shape. -/
theorem flow_transient_iff (f : FlowError) :
    IsTransient.is_transient f = true ↔
      ∃ r, f.requestPhaseSource = some r ∧ r.is_request = true ∧
        ∃ h, r.source = some (ReqwestSource.hyper h) ∧ h.is_incomplete_message = true := by
  cases f with
  | UnableToGetUnreadNotifications u =>
    show IsTransient.is_transient u.common = true ↔ _
    rw [common_transient_iff]
    simp [FlowError.requestPhaseSource]
  | UnableToGetUnreadInbox u =>
    show IsTransient.is_transient u.common = true ↔ _
    rw [common_transient_iff]
    simp [FlowError.requestPhaseSource]
  | UnableToDeliverNotifications p =>
    show IsTransient.is_transient p = true ↔ _
    rw [pushover_transient_iff]
    simp [FlowError.requestPhaseSource]
  | UnableToLoadRegistrations r =>
    show false = true ↔ _
    simp [FlowError.requestPhaseSource]
  | UnableToGetOauthAccessToken r =>
    show false = true ↔ _
    simp [FlowError.requestPhaseSource]
  | UnableToGetCurrentUser r =>
    show false = true ↔ _
    simp [FlowError.requestPhaseSource]
  | UnableToPersistRegistration r =>
    show false = true ↔ _
    simp [FlowError.requestPhaseSource]
  | UnableToPersistPushoverUser r =>
    show false = true ↔ _
    simp [FlowError.requestPhaseSource]
  | UnableToPersistNotifications r =>
    show false = true ↔ _
    simp [FlowError.requestPhaseSource]

/-- C10: an error reaching the worker's breaker is classified transient
exactly when its underlying cause, followed through each collaborator error
wrapper, is a request-phase HTTP error whose source is an
incomplete-message network error; ChildFailed and the breaker-tripped
TooManyTransientFailures are always non-transient. -/
theorem transient_iff_incomplete_message_request :
    (∀ e : PollError, IsTransient.is_transient e = true ↔
      ∃ r, e.requestPhaseSource = some r ∧ r.is_request = true ∧
        ∃ h, r.source = some (ReqwestSource.hyper h) ∧ h.is_incomplete_message = true) ∧
    (∀ j, IsTransient.is_transient (PollError.ChildFailed j) = false) ∧
    (∀ b, IsTransient.is_transient (PollError.TooManyTransientFailures b) = false) := by
  refine ⟨?_, fun j => rfl, fun b => rfl⟩
  intro e
  cases e with
  | ChildFailed j =>
    show false = true ↔ _
    simp [PollError.requestPhaseSource]
  | TooManyTransientFailures b =>
    show false = true ↔ _
    simp [PollError.requestPhaseSource]
  | UnableToGetUnreadNotifications u =>
    show IsTransient.is_transient u.common = true ↔ _
    rw [common_transient_iff]
    simp [PollError.requestPhaseSource]
  | UnableToSendNotifications f =>
    show IsTransient.is_transient f = true ↔ _
    rw [flow_transient_iff]
    simp [PollError.requestPhaseSource]

/-- Witness for C10: the classification evaluated on a concrete worker
error whose chain bottoms out in an incomplete-message request error. -/
theorem transient_iff_incomplete_message_request_witness :
    IsTransient.is_transient
      (PollError.UnableToGetUnreadNotifications
        { common := CommonError.UnableToExecuteRequest incompleteMessageError }) = true :=
  (transient_iff_incomplete_message_request.1 _).mpr
    ⟨incompleteMessageError, rfl, rfl, { is_incomplete_message := true }, rfl, rfl⟩

/-
The actor harness generated by the alictor attribute macro
(alictor/alictor-derive/src/lib.rs) and the hand-written poll-spawner
handle (src/poll_spawner.rs lines 118-145).
-/

/-- Embedding of alictor::ActorError (alictor/src/lib.rs): the
distinguished actor-gone error, wrapping oneshot::Canceled. -/
structure ActorError
deriving Repr, DecidableEq

/-- The reply slot of one command, as the awaiting caller observes it
(futures oneshot semantics): either the dispatch loop invoked the
operation and sent its return value into the slot, or the slot's sender
was dropped without a value — which happens exactly when the command never
reached the dispatch loop, because the send into the mailbox failed or the
loop ended before taking the command. -/
inductive ReplySlot (T : Type) where
  | sent (v : T)
  | droppedWithoutValue
deriving Repr, DecidableEq

/-- One command of an actor: a variant of the generated command enum with
its arguments already applied, so it is the state transformer the dispatch
arm runs (state to new state and return value). -/
structure ActorCommand (S T : Type) where
  op : S → S × T

/-- Embedding of the generated dispatch loop (alictor-derive lines
176-184, dispatch at lines 147-165): while a command arrives, invoke the
matching operation on the exclusively owned state and send the return
value into the command's reply slot, ignoring a failed send.  The argument
list holds the commands the loop receives before its channel closes; the
returned list holds those commands' filled reply slots in order. -/
def dispatchLoop {S T : Type} (s : S) :
    List (ActorCommand S T) → S × List (ReplySlot T)
  | [] => (s, [])
  | cmd :: cmds =>
    let r := cmd.op s
    let rest := dispatchLoop r.1 cmds
    (rest.1, .sent r.2 :: rest.2)

/-- The reply slot awaited by the caller of the i-th command sent to the
actor: the slot the loop filled if the command was among those received,
and a slot dropped without a value if the loop ended first. -/
def replyAt {S T : Type} (s : S) (cmds : List (ActorCommand S T)) (i : Nat) : ReplySlot T :=
  (dispatchLoop s cmds).2.getD i .droppedWithoutValue

/-- Embedding of the generated fallible (try_) handle method
(alictor-derive lines 118-127): enqueue the command ignoring a failed send,
await the reply slot, and wrap a cancelled await into ActorError. -/
def tryCall {T : Type} (slot : ReplySlot T) : RResult T ActorError :=
  match slot with
  | .sent v => .ok v
  | .droppedWithoutValue => .err {}

/-- What Sender::send resolves to for the hand-written poll-spawner
handle: accepted into the mailbox, or an error because every receiving
side is gone. -/
inductive SendOutcome where
  | accepted
  | disconnected
deriving Repr, DecidableEq

/-- Embedding of PollSpawnerHandle::try_start_polling (src/poll_spawner.rs
lines 132-138): send the pair into the mailbox and turn the result into an
Option with .ok(). -/
def try_start_polling (o : SendOutcome) : Option Unit :=
  match o with
  | .accepted => some ()
  | .disconnected => none

/-- The dispatch loop answers exactly as many commands as it receives. -/
theorem dispatchLoop_length {S T : Type} (s : S) (cmds : List (ActorCommand S T)) :
    (dispatchLoop s cmds).2.length = cmds.length := by
  induction cmds generalizing s with
  | nil => rfl
  | cons c cmds ih => simp [dispatchLoop, ih]

/-- The i-th received command's slot holds the value of its operation run
on the state left by the i commands before it. -/
theorem dispatchLoop_getD {S T : Type} :
    ∀ (cmds : List (ActorCommand S T)) (s : S) (i : Nat) (h : i < cmds.length),
      (dispatchLoop s cmds).2.getD i .droppedWithoutValue =
        .sent ((cmds.get ⟨i, h⟩).op (dispatchLoop s (cmds.take i)).1).2
  | _ :: _, _, 0, _ => rfl
  | c :: cmds, s, i + 1, h => by
    show (dispatchLoop (c.op s).1 cmds).2.getD i _ = _
    rw [dispatchLoop_getD cmds (c.op s).1 i (by simpa using h)]
    rfl

/-- C7: a call through a fallible handle method returns the operation's
result when the dispatch loop answers it; when the loop ended before
answering — the command never reached it and its reply slot was dropped
without a value — the call returns the distinguished actor-gone error
instead; and the hand-written try_start_polling returns none exactly when
the mailbox is disconnected. -/
theorem try_call_actor_gone_or_answer :
    (∀ (S T : Type) (s : S) (cmds : List (ActorCommand S T)) (i : Nat)
      (h : i < cmds.length),
      tryCall (replyAt s cmds i) =
        .ok ((cmds.get ⟨i, h⟩).op (dispatchLoop s (cmds.take i)).1).2) ∧
    (∀ (S T : Type) (s : S) (cmds : List (ActorCommand S T)) (i : Nat),
      cmds.length ≤ i → tryCall (replyAt s cmds i) = .err {}) ∧
    (∀ o : SendOutcome, try_start_polling o = none ↔ o = .disconnected) := by
  refine ⟨?_, ?_, ?_⟩
  · intro S T s cmds i h
    rw [replyAt, dispatchLoop_getD cmds s i h]
    rfl
  · intro S T s cmds i h
    rw [replyAt, List.getD_eq_default]
    · rfl
    · rw [dispatchLoop_length]
      exact h
  · intro o
    cases o with
    | accepted => simp [try_start_polling]
    | disconnected => simp [try_start_polling]

/-
The fetch-and-forward flow, src/flow.rs lines 146-204
(ProxyNotificationsAuthFlow::proxy).
-/

/-- Embedding of pushover::UserKey (a newtype over String). -/
structure UserKey where
  val : String
deriving Repr, DecidableEq

/-- Embedding of stack_overflow::Notification as the flow observes it
(only the body is read). -/
structure Notification where
  body : String
deriving Repr, DecidableEq

/-- Embedding of stack_overflow::Inbox as the flow observes it. -/
structure Inbox where
  body : String
deriving Repr, DecidableEq

/-- Embedding of domain::IncomingNotification. -/
structure IncomingNotification where
  account_id : AccountId
  text : String
deriving Repr, DecidableEq

/-- Embedding of domain::OutgoingNotification. -/
structure OutgoingNotification where
  user : UserKey
  text : String
deriving Repr, DecidableEq

/-- The behavior, during one proxy call, of the excluded collaborators the
flow composes: the two unread queries against the notification source, the
deduplicating upsert of the storage collaborator, and the result of a
pushover delivery if one is made. -/
structure ProxyCollaborators where
  unread_notifications : RResult (List Notification) UnreadNotificationsError
  unread_inbox : RResult (List Inbox) UnreadInboxError
  add_new_notifications : List IncomingNotification → RResult (List OutgoingNotification) DatabaseError
  pushover_notify : RResult Unit PushoverError

/-- The combined IncomingNotification list the proxy flow builds from the
two unread query results (src/flow.rs lines 168-178): each notification and
inbox item mapped to an IncomingNotification for this account, chained. -/
def incomingOf (account_id : AccountId) (a : List Notification) (b : List Inbox) :
    List IncomingNotification :=
  a.map (fun n => { account_id := account_id, text := n.body }) ++
    b.map (fun i => { account_id := account_id, text := i.body })

/-- Embedding of ProxyNotificationsAuthFlow::proxy (src/flow.rs lines
155-203): join the two unread queries, propagate their errors in order,
build the combined IncomingNotification list, return early when it is
empty, deduplicate through the storage collaborator, return early when
nothing is new, and only then call the notification sink.  The first
component records the forwarding call: the argument passed to
pushover.notify if the call was made, none otherwise. -/
def proxy (env : ProxyCollaborators) (account_id : AccountId) :
    Option (List OutgoingNotification) × RResult Unit FlowError :=
  match env.unread_notifications with
  | .err e => (none, .err (.UnableToGetUnreadNotifications e))
  | .ok a =>
    match env.unread_inbox with
    | .err e => (none, .err (.UnableToGetUnreadInbox e))
    | .ok b =>
      let notifications := incomingOf account_id a b
      if notifications.isEmpty then (none, .ok ())
      else
        match env.add_new_notifications notifications with
        | .err e => (none, .err (.UnableToPersistNotifications e))
        | .ok new_notifications =>
          if new_notifications.isEmpty then (none, .ok ())
          else
            (some new_notifications,
              match env.pushover_notify with
              | .ok _ => .ok ()
              | .err e => .err (.UnableToDeliverNotifications e))

/-- A list whose isEmpty test fails is not the empty list. -/
theorem ne_nil_of_not_isEmpty {A : Type} {l : List A} (h : ¬ l.isEmpty = true) :
    l ≠ [] :=
  fun hnil => h (by rw [hnil]; rfl)

/-- C8: in one fetch-and-forward attempt the notification sink is called
only when the unread queries succeeded, their combined item list is
nonempty, and deduplication by the storage collaborator left at least one
new item (the sink is then called on exactly those new items); an empty
query result or an empty deduplicated list means no forwarding call. -/
theorem forward_only_when_new (env : ProxyCollaborators) (account_id : AccountId) :
    (∀ ns, (proxy env account_id).1 = some ns →
      ∃ (a : List Notification) (b : List Inbox),
        env.unread_notifications = .ok a ∧ env.unread_inbox = .ok b ∧
        incomingOf account_id a b ≠ [] ∧
        env.add_new_notifications (incomingOf account_id a b) = .ok ns ∧
        ns ≠ []) ∧
    (∀ (a : List Notification) (b : List Inbox),
      env.unread_notifications = .ok a → env.unread_inbox = .ok b →
      incomingOf account_id a b = [] →
      (proxy env account_id).1 = none) ∧
    (∀ (a : List Notification) (b : List Inbox),
      env.unread_notifications = .ok a → env.unread_inbox = .ok b →
      env.add_new_notifications (incomingOf account_id a b) = .ok [] →
      (proxy env account_id).1 = none) := by
  refine ⟨?_, ?_, ?_⟩
  · intro ns h
    rcases ha : env.unread_notifications with a | e
    · rcases hb : env.unread_inbox with b | e
      · refine ⟨a, b, rfl, rfl, ?_⟩
        by_cases hemp : (incomingOf account_id a b).isEmpty
        · simp [proxy, ha, hb, hemp] at h
        · rcases hdb : env.add_new_notifications (incomingOf account_id a b) with ns2 | e2
          · by_cases hnew : ns2.isEmpty
            · simp [proxy, ha, hb, hemp, hdb, hnew] at h
            · simp [proxy, ha, hb, hemp, hdb, hnew] at h
              subst h
              exact ⟨ne_nil_of_not_isEmpty hemp, rfl, ne_nil_of_not_isEmpty hnew⟩
          · simp [proxy, ha, hb, hemp, hdb] at h
      · rw [proxy, ha, hb] at h
        exact Option.noConfusion h
    · rw [proxy, ha] at h
      exact Option.noConfusion h
  · intro a b ha hb hemp
    have hemp2 : (incomingOf account_id a b).isEmpty = true := by rw [hemp]; rfl
    simp [proxy, ha, hb, hemp2]
  · intro a b ha hb hdb
    by_cases hemp : (incomingOf account_id a b).isEmpty
    · simp [proxy, ha, hb, hemp]
    · simp [proxy, ha, hb, hemp, hdb]

end StackOverflowRelay
